import Mathlib

/-!
Verification of the F5 Silverline IP-list integration
(Packs/F5Silverline/Integrations/F5Silverline/F5Silverline.py).

The Python module is shallowly embedded: JSON-like Python values become the
inductive type JVal, Python exceptions become the PyErr type, and the HTTP
client is a parameter env : Request -> Except String JVal whose error strings
stand for DemistoException messages raised by the underlying BaseClient.
Command handlers additionally return the list of HTTP requests they issued,
in order, so that claims about which requests are sent can be stated.
-/

/-- A Python/JSON value as handled by the integration: None, bool, int,
str, list, dict (insertion-ordered association list with unique keys). -/
inductive JVal where
  | null : JVal
  | bool (b : Bool) : JVal
  | num (n : Int) : JVal
  | str (s : String) : JVal
  | arr (elems : List JVal) : JVal
  | obj (fields : List (String × JVal)) : JVal

/-- Python exceptions that the embedded code can raise.  DemistoException
(raised by the HTTP layer) is kept separate because test_module catches
exactly that class. -/
inductive PyErr where
  | demisto (msg : String) : PyErr
  | valueError (msg : String) : PyErr
  | typeError (msg : String) : PyErr
  | indexError (msg : String) : PyErr
  | attributeError (msg : String) : PyErr
  | keyError (key : String) : PyErr
deriving DecidableEq

/-- Python truthiness of a JVal: None, False, 0, empty string, empty list
and empty dict are falsy; everything else is truthy. -/
def truthy : JVal → Bool
  | .null => false
  | .bool b => b
  | .num n => n != 0
  | .str s => !s.toList.isEmpty
  | .arr l => !l.isEmpty
  | .obj f => !f.isEmpty

/-- First binding of a key in an association list, None when absent
(Python dict.get with default None; keys are unique in every dict the
program builds, so first-match lookup coincides with dict lookup). -/
def lookupField : List (String × JVal) → String → JVal
  | [], _ => JVal.null
  | (k, v) :: rest, key => if k == key then v else lookupField rest key

/-- x.get(key) on a JVal: returns the binding (or None) when x is a dict,
raises AttributeError otherwise (e.g. None.get(...)). -/
def JVal.getd : JVal → String → Except PyErr JVal
  | .obj fields, key => .ok (lookupField fields key)
  | _, _ => .error (.attributeError "object has no attribute get")

/-- args.get(key) on the command argument dict. -/
def dGet (args : List (String × JVal)) (key : String) : JVal :=
  lookupField args key

/-- args.get(key, default) on the command argument dict. -/
def dGetD (args : List (String × JVal)) (key : String) (dflt : JVal) : JVal :=
  match args.find? (fun kv => kv.1 == key) with
  | some kv => kv.2
  | none => dflt

/-- args[key] on the command argument dict: KeyError when absent. -/
def dGetItem (args : List (String × JVal)) (key : String) : Except PyErr JVal :=
  match args.find? (fun kv => kv.1 == key) with
  | some kv => .ok kv.2
  | none => .error (.keyError key)

/-- Start code points of the Unicode Nd (decimal digit) ranges; each range
spans ten consecutive code points holding the digits 0 through 9.  Python
int() accepts any of these digits (CPython maps them to their ASCII
equivalents before parsing). -/
def ndRangeStarts : List Nat :=
  [0x30, 0x660, 0x6F0, 0x7C0, 0x966, 0x9E6, 0xA66, 0xAE6, 0xB66, 0xBE6,
   0xC66, 0xCE6, 0xD66, 0xDE6, 0xE50, 0xED0, 0xF20, 0x1040, 0x1090, 0x17E0,
   0x1810, 0x1946, 0x19D0, 0x1A80, 0x1A90, 0x1B50, 0x1BB0, 0x1C40, 0x1C50,
   0xA620, 0xA8D0, 0xA900, 0xA9D0, 0xA9F0, 0xAA50, 0xABF0, 0xFF10,
   0x104A0, 0x10D30, 0x11066, 0x110F0, 0x11136, 0x111D0, 0x112F0, 0x11450,
   0x114D0, 0x11650, 0x116C0, 0x11730, 0x118E0, 0x11950, 0x11C50, 0x11D50,
   0x11DA0, 0x11F50, 0x16A60, 0x16AC0, 0x16B50,
   0x1D7CE, 0x1D7D8, 0x1D7E2, 0x1D7EC, 0x1D7F6,
   0x1E140, 0x1E2F0, 0x1E4F0, 0x1E950, 0x1FBF0]

/-- The decimal value of a Unicode decimal digit (any Nd character), none
for every other character. -/
def pyDigitVal (c : Char) : Option Nat :=
  (ndRangeStarts.find? (fun s => s ≤ c.toNat && c.toNat ≤ s + 9)).map
    (fun s => c.toNat - s)

/-- The whitespace characters Python int() strips around a numeric string
(Py_UNICODE_ISSPACE): tab through carriage return, the file separators
28-31, space, next line 0x85, no-break space 0xA0, ogham space mark, the
Zs spaces 0x2000-0x200A, line and paragraph separators, narrow no-break
space, medium mathematical space and ideographic space. -/
def pyIsSpace (c : Char) : Bool :=
  let n := c.toNat
  (9 ≤ n && n ≤ 13) || (28 ≤ n && n ≤ 31) || n == 32 || n == 0x85 || n == 0xA0 ||
  n == 0x1680 || (0x2000 ≤ n && n ≤ 0x200A) || n == 0x2028 || n == 0x2029 ||
  n == 0x202F || n == 0x205F || n == 0x3000

/-- The digit section of a Python int literal after its first digit: decimal
digits with single underscores allowed only between digits (PEP 515); a
trailing, doubled or digit-less underscore fails. -/
def digitsU (acc : Nat) : List Char → Option Nat
  | [] => some acc
  | '_' :: rest =>
    match rest with
    | c :: rest2 =>
      match pyDigitVal c with
      | some d => digitsU (acc * 10 + d) rest2
      | none => none
    | [] => none
  | c :: rest =>
    match pyDigitVal c with
    | some d => digitsU (acc * 10 + d) rest
    | none => none

/-- A digit group of a Python int literal: at least one decimal digit, no
leading underscore, then digits grouped by single underscores. -/
def parseDigits (l : List Char) : Option Nat :=
  match l with
  | [] => none
  | '_' :: _ => none
  | _ => digitsU 0 l

/-- Python int(s) on a string (base 10): strip surrounding Python
whitespace, allow one optional sign, then at least one Unicode decimal
digit with underscore grouping per PEP 515 (int("4_2") is 42); none when
int() would raise ValueError. -/
def pyIntParse (s : String) : Option Int :=
  let l := (s.toList.dropWhile pyIsSpace).reverse.dropWhile pyIsSpace |>.reverse
  match l with
  | '-' :: rest => (parseDigits rest).map (fun n => -(n : Int))
  | '+' :: rest => (parseDigits rest).map (fun n => (n : Int))
  | _ => (parseDigits l).map (fun n => (n : Int))

/-- Python int(x) on a value: ints pass through, bools coerce, strings are
parsed (ValueError on failure), anything else raises TypeError. -/
def pyInt : JVal → Except PyErr Int
  | .num n => .ok n
  | .bool b => .ok (if b then 1 else 0)
  | .str s =>
    match pyIntParse s with
    | some n => .ok n
    | none => .error (.valueError ("invalid literal for int with base 10: " ++ s))
  | _ => .error (.typeError "int argument must be a string or a number")

/-- lst[0] on a Python list: IndexError when empty. -/
def pyHead : List JVal → Except PyErr JVal
  | [] => .error (.indexError "list index out of range")
  | x :: _ => .ok x

/-- Modelled from the spec: the platform helper argToList is not part of the
source tree; per the spec the object_id argument may hold one or many ids and
an absent argument means no ids.  An absent/falsy argument becomes the empty
list, a list stays itself, a comma-separated string is split into trimmed
items, and any other value becomes a one-element list. -/
def argToList (arg : JVal) : List JVal :=
  if truthy arg then
    match arg with
    | .arr l => l
    | .str s => (s.splitOn ",").map (fun t => JVal.str t.trim)
    | v => [v]
  else []

/-- Python str() of a value as used inside f-strings.  The claim-relevant
inputs are None, numbers and strings, which are rendered exactly; container
rendering approximates the Python repr (strings inside containers are shown
without quotes). -/
def pyStr : JVal → String
  | .null => "None"
  | .bool b => if b then "True" else "False"
  | .num n => toString n
  | .str s => s
  | .arr _ => "[...]"
  | .obj _ => "\x7b...\x7d"

/-- One HTTP request as issued by Client.request_ip_objects: method, url
suffix, JSON body, query parameters, response type. -/
structure Request where
  method : String
  urlSuffix : String
  body : JVal
  params : List (String × Int)
  respType : String

/-- CommandResults as built by the handlers: the human readable output plus
the optional structured output fields. -/
structure CommandResults where
  readable_output : String
  outputsPrefix : Option String
  outputsKeyField : Option String
  outputs : Option JVal

/-- The literal text matched by the lookbehind of PAGE_NUMBER_PATTERN. -/
def pagePat : List Char := ['p', 'a', 'g', 'e', '[', 'n', 'u', 'm', 'b', 'e', 'r', ']', '=']

/-- The lazy body and lookahead of PAGE_NUMBER_PATTERN at a fixed start
position: the shortest run of non-newline characters that is followed by
an ampersand; none when no ampersand follows before a newline or the end. -/
def matchAfter : List Char → Option (List Char)
  | [] => none
  | c :: rest =>
    if c = '&' then some []
    else if c = '\n' then none
    else (matchAfter rest).map (fun m => c :: m)

/-- re.search(PAGE_NUMBER_PATTERN, s): scan start positions left to right;
wherever the lookbehind page[number]= holds, try the lazy body; return the
first (leftmost) successful match. -/
def searchPage : List Char → Option (List Char)
  | [] => none
  | c :: rest =>
    if pagePat.isPrefixOf (c :: rest) then
      match matchAfter (List.drop pagePat.length (c :: rest)) with
      | some m => some m
      | none => searchPage rest
    else searchPage rest

/-- re.search(...).group(0) on a link value: TypeError when the value is not
a string, AttributeError (group on None) when the pattern does not match. -/
def extractPageNumber (link : JVal) : Except PyErr JVal :=
  match link with
  | .str s =>
    match searchPage s.toList with
    | some m => .ok (JVal.str (String.mk m))
    | none => .error (.attributeError "NoneType object has no attribute group")
  | _ => .error (.typeError "expected string or bytes-like object")

/-- add_paging_to_outputs (F5Silverline.py lines 155-162): read the self and
last links from the paging dict; the current page number is the regex
extraction from the self link, falling back to the caller-supplied
page_number when the self link is falsy; the last page number is the regex
extraction from the last link, falling back to the current page number. -/
def add_paging_to_outputs (paging_dict : JVal) (page_number : JVal) :
    Except PyErr (JVal × JVal) :=
  match paging_dict.getd "self" with
  | .error e => .error e
  | .ok linkToCurrentObj =>
    match paging_dict.getd "last" with
    | .error e => .error e
    | .ok linkToLastObj =>
      match (if truthy linkToCurrentObj then extractPageNumber linkToCurrentObj
             else .ok page_number) with
      | .error e => .error e
      | .ok currentPageNumber =>
        match (if truthy linkToLastObj then extractPageNumber linkToLastObj
               else .ok currentPageNumber) with
        | .error e => .error e
        | .ok lastPageNumber => .ok (currentPageNumber, lastPageNumber)

/-- The ValueError message raised by paging_args_to_params. -/
def pagingErrMsg : String := "page_number and page_size should be numbers"

/-- paging_args_to_params (lines 64-75): int() both arguments (page_size
first), mapping a ValueError from either conversion to the validation
message; any other exception (e.g. TypeError) propagates unchanged. -/
def paging_args_to_params (page_size page_number : JVal) :
    Except PyErr (List (String × Int)) :=
  match pyInt page_size with
  | .error (.valueError _) => .error (.valueError pagingErrMsg)
  | .error e => .error e
  | .ok s =>
    match pyInt page_number with
    | .error (.valueError _) => .error (.valueError pagingErrMsg)
    | .error e => .error e
    | .ok n => .ok [("page[size]", s), ("page[number]", n)]

/-- handle_paging (lines 141-152): paging is required only when both
page_number and page_size are truthy, in which case the parameter dict is
built (validation may raise); otherwise no paging, empty parameters. -/
def handle_paging (page_number page_size : JVal) :
    Except PyErr (Bool × List (String × Int)) :=
  if truthy page_number && truthy page_size then
    match paging_args_to_params page_size page_number with
    | .ok params => .ok (true, params)
    | .error e => .error e
  else .ok (false, [])

/-- paging_outputs_dict (lines 165-170). -/
def paging_outputs_dict (currentPageNumber lastPageNumber pageSize : JVal) : JVal :=
  JVal.obj [("current_page_number", currentPageNumber),
            ("current_page_size", pageSize),
            ("last_page_number", lastPageNumber)]

/-- paging_data_to_human_readable (lines 173-181). -/
def paging_data_to_human_readable (currentPageNumber lastPageNumber pageSize : JVal) : String :=
  let output := "Current page number: " ++ pyStr currentPageNumber ++ "\n "
  let lastPageNumber := if truthy lastPageNumber then lastPageNumber else currentPageNumber
  let output := output ++ "Last page number: " ++ pyStr lastPageNumber ++ "\n"
  if truthy pageSize then output ++ "Current page size: " ++ pyStr pageSize else output

/-- test_module (lines 49-61): GET the denylist collection; ok on success;
a DemistoException whose text contains Unauthorized becomes the fixed
guidance message; any other error is re-raised unchanged. -/
def containsSubstr (needle : List Char) : List Char → Bool
  | [] => needle.isEmpty
  | c :: rest => needle.isPrefixOf (c :: rest) || containsSubstr needle rest

/-- The fixed authorization guidance message of test_module. -/
def authErrMsg : String := "Authorization Error: make sure API Key is correctly set"

/-- The GET request issued by test_module (line 54). -/
def testRequest : Request := ⟨"GET", "denylist/ip_objects", JVal.obj [], [], "json"⟩

def test_module (env : Request → Except String JVal) : Except PyErr String :=
  match env testRequest with
  | .ok _ => .ok "ok"
  | .error e =>
    if containsSubstr "Unauthorized".toList e.toList then .ok authErrMsg
    else .error (.demisto e)

/-- define_body_for_add_ip_command (lines 101-123): the nested request body
of the add command, matching the remote schema. -/
def define_body_for_add_ip_command (listTarget mask ipAddress duration note tags : JVal) : JVal :=
  JVal.obj [("list_target", listTarget),
            ("data", JVal.obj
              [("id", JVal.str ""),
               ("type", JVal.str "ip_objects"),
               ("attributes", JVal.obj
                 [("mask", mask), ("ip", ipAddress), ("duration", duration)]),
               ("meta", JVal.obj
                 [("note", note), ("tags", tags)])])]

/-- add_ip_objects_command (lines 78-98): read the arguments with their
defaults, build the body, POST it, and return the confirmation text.  The
second component lists the HTTP requests issued, in order. -/
def add_ip_objects_command (env : Request → Except String JVal)
    (args : List (String × JVal)) : Except PyErr CommandResults × List Request :=
  match dGetItem args "list_type" with
  | .error e => (.error e, [])
  | .ok listType =>
    match dGetItem args "IP" with
    | .error e => (.error e, [])
    | .ok ipAddress =>
      let listTarget := dGetD args "list_target" (JVal.str "proxy-routed")
      let mask := dGetD args "mask" (JVal.str "32")
      match pyInt (dGetD args "duration" (JVal.num 0)) with
      | .error e => (.error e, [])
      | .ok duration =>
        let note := dGetD args "note" (JVal.str "")
        let tags := argToList (dGetD args "tags" (JVal.arr []))
        let urlSuffix := pyStr listType ++ "/ip_objects"
        let body := define_body_for_add_ip_command listTarget mask ipAddress
          (JVal.num duration) note (JVal.arr tags)
        let req : Request := ⟨"POST", urlSuffix, body, [], "content"⟩
        (match env req with
         | .error e => .error (.demisto e)
         | .ok _ =>
           .ok ⟨"IP object with IP address: " ++ pyStr ipAddress ++
                " added successfully into the " ++ pyStr listType ++ " list.",
                none, none, none⟩, [req])

/-- One entry of the parsed human-readable results (lines 259-266): the
dict literal built for a truthy ip_object, evaluating the nested gets in
source order. -/
def parseOne (ipObject : JVal) : Except PyErr JVal := do
  let idv ← ipObject.getd "id"
  let attrs ← ipObject.getd "attributes"
  let ip ← attrs.getd "ip"
  let expires ← attrs.getd "expires_at"
  let listTarget ← attrs.getd "list_target"
  let meta ← ipObject.getd "meta"
  let created ← meta.getd "created_at"
  let updated ← meta.getd "updated_at"
  pure (JVal.obj [("ID", idv), ("IP", ip), ("Expires At", expires),
                  ("List Target", listTarget), ("Created At", created),
                  ("Updated At", updated)])

/-- The loop of parse_get_ip_object_list_results (lines 257-266): falsy
elements are skipped, each truthy element is parsed in order, and the first
exception aborts the loop. -/
def parseElems : List JVal → Except PyErr (List JVal)
  | [] => .ok []
  | x :: rest =>
    if truthy x then
      match parseOne x with
      | .error e => .error e
      | .ok p => (parseElems rest).map (fun ps => p :: ps)
    else parseElems rest

/-- parse_get_ip_object_list_results (lines 243-267): read the data field;
a single dict is normalized to a one-element list; then iterate.  Iterating
a non-list raises: an empty string iterates zero times, a nonempty string
yields characters whose get raises AttributeError, None and numbers raise
TypeError. -/
def parse_get_ip_object_list_results (results : JVal) : Except PyErr (List JVal) :=
  match results.getd "data" with
  | .error e => .error e
  | .ok resultsData =>
    let resultsData := match resultsData with
      | .obj f => JVal.arr [JVal.obj f]
      | d => d
    match resultsData with
    | .arr elems => parseElems elems
    | .str s => if s.toList.isEmpty then .ok [] else .error (.attributeError "str object has no attribute get")
    | _ => .error (.typeError "object is not iterable")

/-- The GET request issued for one object id (line 236-237). -/
def mkIdRequest (listType oid : JVal) (params : List (String × Int)) : Request :=
  ⟨"GET", pyStr listType ++ "/ip_objects/" ++ pyStr oid, JVal.obj [], params, "json"⟩

/-- get_ip_objects_by_ids (lines 228-240): one GET per id in input order;
for each response, its data field is appended to outputs and the first
element of its parsed results to human_results; any exception aborts. -/
def get_ip_objects_by_ids (env : Request → Except String JVal)
    (objectIds : List JVal) (listType : JVal) (params : List (String × Int)) :
    Except PyErr (List JVal × List JVal) × List Request :=
  match objectIds with
  | [] => (.ok ([], []), [])
  | oid :: rest =>
    let req := mkIdRequest listType oid params
    match env req with
    | .error e => (.error (.demisto e), [req])
    | .ok res =>
      match res.getd "data" with
      | .error e => (.error e, [req])
      | .ok dataVal =>
        match parse_get_ip_object_list_results res with
        | .error e => (.error e, [req])
        | .ok parsed =>
          match pyHead parsed with
          | .error e => (.error e, [req])
          | .ok h =>
            match get_ip_objects_by_ids env rest listType params with
            | (.error e, tr) => (.error e, req :: tr)
            | (.ok (hs, os), tr) => (.ok (h :: hs, dataVal :: os), req :: tr)

/-- The fallback guidance text of get_ip_objects_list_command (lines 217-218). -/
def fallbackText : String :=
  "No results were found. Please try to run the command without page_number and page_size to get all existing IP objects."

/-- The tail of get_ip_objects_list_command (lines 212-225): table plus
paging summary, overridden by the fallback guidance when paging was
required and nothing was parsed; ttm stands for tableToMarkdown applied to
the fixed title, headers and removeNull flag. -/
def finishList (ttm : List JVal → String) (humanResults : List JVal)
    (pagingDataHumanReadable : String) (outputs pagingData : JVal)
    (isPagingRequired : Bool) : CommandResults :=
  let humanReadable := ttm humanResults ++ pagingDataHumanReadable
  let humanReadable :=
    if humanResults.isEmpty && isPagingRequired then fallbackText else humanReadable
  ⟨humanReadable, some "F5Silverline", some "id",
   some (JVal.obj [("IPObjectList", outputs), ("Paging", pagingData)])⟩

/-- get_ip_objects_list_command (lines 184-225): read arguments, decide
paging, then either one GET over the collection (with paging data extracted
from the navigation links when paging was required and the data is truthy)
or one GET per requested id; finally build the outputs, overriding the
human readable text when paging was required and nothing was parsed. -/
def get_ip_objects_list_command (env : Request → Except String JVal)
    (ttm : List JVal → String) (args : List (String × JVal)) :
    Except PyErr CommandResults × List Request :=
  match dGetItem args "list_type" with
  | .error e => (.error e, [])
  | .ok listType =>
    let objectIds := argToList (dGet args "object_id")
    let pageNumber := dGet args "page_number"
    let pageSize := dGet args "page_size"
    let urlSuffix := pyStr listType ++ "/ip_objects"
    match handle_paging pageNumber pageSize with
    | .error e => (.error e, [])
    | .ok (isPagingRequired, params) =>
      if objectIds.isEmpty then
        let req : Request := ⟨"GET", urlSuffix, JVal.obj [], params, "json"⟩
        (match env req with
         | .error e => .error (.demisto e)
         | .ok response =>
           match response.getd "data" with
           | .error e => .error e
           | .ok outputs =>
             match parse_get_ip_object_list_results response with
             | .error e => .error e
             | .ok humanResults =>
               if isPagingRequired && truthy outputs then
                 match response.getd "links" with
                 | .error e => .error e
                 | .ok links =>
                   match add_paging_to_outputs links pageNumber with
                   | .error e => .error e
                   | .ok (cur, last) =>
                     let pagingData := paging_outputs_dict cur last pageSize
                     let pdhr := paging_data_to_human_readable cur last pageSize
                     .ok (finishList ttm humanResults pdhr outputs pagingData
                            isPagingRequired)
               else
                 .ok (finishList ttm humanResults "" outputs (JVal.arr [])
                        isPagingRequired), [req])
      else
        match get_ip_objects_by_ids env objectIds listType params with
        | (.error e, tr) => (.error e, tr)
        | (.ok (humanResults, outs), tr) =>
          (.ok (finishList ttm humanResults "" (JVal.arr outs) (JVal.arr [])
                  isPagingRequired), tr)

/-- No occurrence of the page[number]= lookbehind text starts inside the
first component of the split l1 ++ rest (executable form used as a
hypothesis about where the pattern first occurs in a link). -/
def noEarlierOcc (l1 rest : List Char) : Bool :=
  (List.range l1.length).all (fun i => !(pagePat.isPrefixOf ((l1 ++ rest).drop i)))

/-- Every occurrence of the page[number]= lookbehind text in l is never
followed (anywhere later) by an ampersand (executable form of the condition
under which PAGE_NUMBER_PATTERN cannot match). -/
def noPageAmp (l : List Char) : Bool :=
  (List.range l.length).all (fun i =>
    !(pagePat.isPrefixOf (l.drop i)) || !(decide ('&' ∈ l.drop (i + pagePat.length))))

/-- The data field of a response is absent (None), or is a list whose
elements are all falsy (in particular the empty list). -/
def badData (resp : JVal) : Bool :=
  match resp.getd "data" with
  | .ok .null => true
  | .ok (.arr l) => l.all (fun x => !truthy x)
  | _ => false

/-- Whether an Except value is an error. -/
def isError {α : Type} : Except PyErr α → Bool
  | .error _ => true
  | .ok _ => false

/-- A client that always answers with an empty data list. -/
def wEnvEmpty : Request → Except String JVal := fun _ => .ok (JVal.obj [("data", JVal.arr [])])

/-- A table renderer standing for tableToMarkdown in witnesses. -/
def wTtm : List JVal → String := fun _ => "TBL"

/-- A client that always succeeds with None. -/
def wEnvOk : Request → Except String JVal := fun _ => .ok JVal.null

/-- A client that always fails with an unauthorized error. -/
def wEnvUnauth : Request → Except String JVal := fun _ => .error "Error in API call [401] - Unauthorized"

/-- A client that always fails with a server error. -/
def wEnvServer : Request → Except String JVal := fun _ => .error "Error in API call [500] - Server Error"

/-- The data entry served for one id by the witness client below. -/
def wC3Data (oid : JVal) : JVal :=
  JVal.obj [("id", oid),
            ("attributes", JVal.obj [("ip", JVal.str "1.2.3.4"), ("expires_at", JVal.null),
                                     ("list_target", JVal.str "proxy-routed")]),
            ("meta", JVal.obj [("created_at", JVal.null), ("updated_at", JVal.null)])]

/-- The response served for one id by the witness client below. -/
def wC3Resp (oid : JVal) : JVal := JVal.obj [("data", wC3Data oid)]

/-- A client that serves the ids a and b (ignoring query parameters, as the
remote API does for single lookups) and fails on anything else. -/
def wC3Env : Request → Except String JVal := fun r =>
  if r.urlSuffix = "denylist/ip_objects/a" then .ok (wC3Resp (JVal.str "a"))
  else if r.urlSuffix = "denylist/ip_objects/b" then .ok (wC3Resp (JVal.str "b"))
  else .error "404"

/-- The parsed table row for one id served by the witness client. -/
def wC3Row (oid : JVal) : JVal :=
  JVal.obj [("ID", oid), ("IP", JVal.str "1.2.3.4"), ("Expires At", JVal.null),
            ("List Target", JVal.str "proxy-routed"), ("Created At", JVal.null),
            ("Updated At", JVal.null)]

theorem matchAfter_append_amp (m r : List Char) (h1 : '&' ∉ m) (h2 : '\n' ∉ m) :
    matchAfter (m ++ '&' :: r) = some m := by
  induction m with
  | nil => simp [matchAfter]
  | cons c m ih =>
    simp only [List.mem_cons, not_or] at h1 h2
    have hc1 : ¬ c = '&' := fun h => h1.1 h.symm
    have hc2 : ¬ c = '\n' := fun h => h2.1 h.symm
    simp [matchAfter, hc1, hc2, ih h1.2 h2.2]

theorem matchAfter_eq_none (l : List Char) (h : '&' ∉ l) : matchAfter l = none := by
  induction l with
  | nil => rfl
  | cons c rest ih =>
    simp only [List.mem_cons, not_or] at h
    have hc1 : ¬ c = '&' := fun hx => h.1 hx.symm
    by_cases hc2 : c = '\n'
    · simp [matchAfter, hc1, hc2]
    · simp [matchAfter, hc1, hc2, ih h.2]

theorem searchPage_cons (c : Char) (rest : List Char) :
    searchPage (c :: rest) =
      if pagePat.isPrefixOf (c :: rest) then
        match matchAfter (List.drop pagePat.length (c :: rest)) with
        | some m => some m
        | none => searchPage rest
      else searchPage rest := rfl

theorem searchPage_of_isPrefixOf (l : List Char) (h : pagePat.isPrefixOf l = true)
    (m : List Char) (hm : matchAfter (List.drop pagePat.length l) = some m) :
    searchPage l = some m := by
  cases l with
  | nil => simp [pagePat, List.isPrefixOf] at h
  | cons c rest =>
    rw [searchPage_cons, if_pos h, hm]

theorem searchPage_skip (c : Char) (rest : List Char)
    (h : pagePat.isPrefixOf (c :: rest) = false) :
    searchPage (c :: rest) = searchPage rest := by
  rw [searchPage_cons, if_neg (by simp [h])]

theorem searchPage_step_none (c : Char) (rest : List Char)
    (h : matchAfter (List.drop pagePat.length (c :: rest)) = none) :
    searchPage (c :: rest) = searchPage rest := by
  rw [searchPage_cons]
  by_cases hp : pagePat.isPrefixOf (c :: rest) = true
  · rw [if_pos hp, h]
  · rw [if_neg (by simp [Bool.eq_false_iff.mpr hp])]

theorem searchPage_found (l1 m r : List Char)
    (h : ∀ i, i < l1.length → pagePat.isPrefixOf ((l1 ++ (pagePat ++ (m ++ '&' :: r))).drop i) = false)
    (h1 : '&' ∉ m) (h2 : '\n' ∉ m) :
    searchPage (l1 ++ (pagePat ++ (m ++ '&' :: r))) = some m := by
  induction l1 with
  | nil =>
    simp only [List.nil_append]
    refine searchPage_of_isPrefixOf _ ?_ m ?_
    · simp [List.isPrefixOf_iff_prefix]
    · rw [List.drop_left]
      exact matchAfter_append_amp m r h1 h2
  | cons c l1 ih =>
    have h0 : pagePat.isPrefixOf ((c :: l1) ++ (pagePat ++ (m ++ '&' :: r))) = false := by
      have := h 0 (by simp)
      simpa using this
    rw [List.cons_append]
    rw [List.cons_append] at h0
    rw [searchPage_skip _ _ h0]
    refine ih ?_
    intro i hi
    have := h (i + 1) (by simpa using Nat.succ_lt_succ hi)
    simpa [List.cons_append, List.drop_succ_cons] using this

theorem searchPage_eq_none (l : List Char)
    (h : ∀ i, i < l.length → pagePat.isPrefixOf (l.drop i) = true →
      '&' ∉ l.drop (i + pagePat.length)) :
    searchPage l = none := by
  induction l with
  | nil => rfl
  | cons c rest ih =>
    have hshift : ∀ i, i < rest.length → pagePat.isPrefixOf (rest.drop i) = true →
        '&' ∉ rest.drop (i + pagePat.length) := by
      intro i hi hp
      have hs := h (i + 1) (by simpa using Nat.succ_lt_succ hi)
      rw [List.drop_succ_cons] at hs
      have heq : i + 1 + pagePat.length = (i + pagePat.length) + 1 := by omega
      rw [heq, List.drop_succ_cons] at hs
      exact hs hp
    by_cases hp : pagePat.isPrefixOf (c :: rest) = true
    · have h0 := h 0 (by simp) hp
      rw [Nat.zero_add] at h0
      rw [searchPage_step_none _ _ (matchAfter_eq_none _ h0)]
      exact ih hshift
    · rw [searchPage_skip _ _ (Bool.eq_false_iff.mpr hp)]
      exact ih hshift

theorem noEarlierOcc_spec (l1 rest : List Char) (h : noEarlierOcc l1 rest = true) :
    ∀ i, i < l1.length → pagePat.isPrefixOf ((l1 ++ rest).drop i) = false := by
  intro i hi
  have := List.all_eq_true.mp h i (List.mem_range.mpr hi)
  simpa using this

theorem noPageAmp_spec (l : List Char) (h : noPageAmp l = true) :
    ∀ i, i < l.length → pagePat.isPrefixOf (l.drop i) = true →
      '&' ∉ l.drop (i + pagePat.length) := by
  intro i hi hp
  have := List.all_eq_true.mp h i (List.mem_range.mpr hi)
  rw [hp] at this
  simpa using this

theorem extractPageNumber_found (s : String) (m : List Char)
    (h : searchPage s.toList = some m) :
    extractPageNumber (JVal.str s) = .ok (JVal.str (String.mk m)) := by
  simp only [extractPageNumber, h]

theorem extractPageNumber_none (s : String) (h : searchPage s.toList = none) :
    extractPageNumber (JVal.str s) =
      .error (.attributeError "NoneType object has no attribute group") := by
  simp only [extractPageNumber, h]

theorem add_paging_result (pd pn selfv lastv cur last : JVal)
    (hs : pd.getd "self" = .ok selfv) (hl : pd.getd "last" = .ok lastv)
    (hcur : (if truthy selfv then extractPageNumber selfv else .ok pn) = .ok cur)
    (hlast : (if truthy lastv then extractPageNumber lastv else .ok cur) = .ok last) :
    add_paging_to_outputs pd pn = .ok (cur, last) := by
  unfold add_paging_to_outputs
  simp only [hs, hl, hcur, hlast]

theorem add_paging_error_self (pd pn selfv lastv : JVal) (e : PyErr)
    (hs : pd.getd "self" = .ok selfv) (hl : pd.getd "last" = .ok lastv)
    (hcur : (if truthy selfv then extractPageNumber selfv else .ok pn) = .error e) :
    add_paging_to_outputs pd pn = .error e := by
  unfold add_paging_to_outputs
  simp only [hs, hl, hcur]

theorem add_paging_ok_inv (pd pn cur last : JVal)
    (h : add_paging_to_outputs pd pn = .ok (cur, last)) :
    ∃ selfv lastv, pd.getd "self" = .ok selfv ∧ pd.getd "last" = .ok lastv ∧
      (if truthy selfv then extractPageNumber selfv else .ok pn) = .ok cur ∧
      (if truthy lastv then extractPageNumber lastv else .ok cur) = .ok last := by
  unfold add_paging_to_outputs at h
  cases hs : pd.getd "self" with
  | error e => simp only [hs] at h; exact Except.noConfusion h
  | ok selfv =>
    simp only [hs] at h
    cases hl : pd.getd "last" with
    | error e => simp only [hl] at h; exact Except.noConfusion h
    | ok lastv =>
      simp only [hl] at h
      cases hcur : (if truthy selfv then extractPageNumber selfv else .ok pn) with
      | error e => simp only [hcur] at h; exact Except.noConfusion h
      | ok cur2 =>
        simp only [hcur] at h
        cases hlast : (if truthy lastv then extractPageNumber lastv else .ok cur2) with
        | error e => simp only [hlast] at h; exact Except.noConfusion h
        | ok last2 =>
          simp only [hlast, Except.ok.injEq, Prod.mk.injEq] at h
          obtain ⟨h1, h2⟩ := h
          subst h1; subst h2
          exact ⟨selfv, lastv, rfl, rfl, hcur, hlast⟩

theorem add_paging_error_last (pd pn selfv lastv cur : JVal) (e : PyErr)
    (hs : pd.getd "self" = .ok selfv) (hl : pd.getd "last" = .ok lastv)
    (hcur : (if truthy selfv then extractPageNumber selfv else .ok pn) = .ok cur)
    (hlast : (if truthy lastv then extractPageNumber lastv else .ok cur) = .error e) :
    add_paging_to_outputs pd pn = .error e := by
  unfold add_paging_to_outputs
  simp only [hs, hl, hcur, hlast]

/-- C9: page-number extraction from a present navigation link (self or last)
succeeds only when an ampersand appears after the page[number]= value; on
every nonempty link in which no occurrence of page[number]= is followed
later by an ampersand (noPageAmp), add_paging_to_outputs raises the
AttributeError coming from calling group on a failed regex search. -/
theorem claim_C9 (s t : String) (pn : JVal) :
    (truthy (JVal.str s) = true → noPageAmp s.toList = true →
      add_paging_to_outputs (JVal.obj [("self", JVal.str s)]) pn =
        .error (.attributeError "NoneType object has no attribute group"))
    ∧ (truthy (JVal.str t) = true → noPageAmp t.toList = true →
      add_paging_to_outputs (JVal.obj [("last", JVal.str t)]) pn =
        .error (.attributeError "NoneType object has no attribute group")) := by
  constructor
  · intro ht hamp
    have hnone := extractPageNumber_none s (searchPage_eq_none _ (noPageAmp_spec _ hamp))
    refine add_paging_error_self _ pn (JVal.str s) JVal.null _ rfl rfl ?_
    rw [if_pos ht, hnone]
  · intro ht hamp
    have hnone := extractPageNumber_none t (searchPage_eq_none _ (noPageAmp_spec _ hamp))
    refine add_paging_error_last _ pn JVal.null (JVal.str t) pn _ rfl rfl ?_ ?_
    · simp [truthy]
    · rw [if_pos ht, hnone]

/-- C9 witness: a self link whose page[number] parameter is last in the
query string, and a last link likewise, both make the extraction raise. -/
theorem claim_C9_witness :
    add_paging_to_outputs (JVal.obj [("self", JVal.str "https://x?page[number]=7")]) (JVal.str "1") =
      .error (.attributeError "NoneType object has no attribute group")
    ∧ add_paging_to_outputs (JVal.obj [("last", JVal.str "https://x?page[number]=9")]) (JVal.str "1") =
      .error (.attributeError "NoneType object has no attribute group") :=
  ⟨(claim_C9 "https://x?page[number]=7" "" (JVal.str "1")).1 (by decide) (by decide),
   (claim_C9 "" "https://x?page[number]=9" (JVal.str "1")).2 (by decide) (by decide)⟩

/-- C1 (amended): if the first occurrence of page[number]= in the self link
is immediately followed by 3 and an ampersand, and likewise 7 in the last
link, add_paging_to_outputs extracts (3, 7); whenever the call succeeds with
a falsy last link the extracted last page equals the extracted current page;
and whenever the call succeeds with a falsy self link the current page
number is the caller-supplied page_number. -/
theorem claim_C1 :
    (∀ (l1 r1 l2 r2 : List Char) (pn : JVal),
      noEarlierOcc l1 (pagePat ++ ('3' :: '&' :: r1)) = true →
      noEarlierOcc l2 (pagePat ++ ('7' :: '&' :: r2)) = true →
      add_paging_to_outputs
        (JVal.obj [("self", JVal.str (String.mk (l1 ++ (pagePat ++ ('3' :: '&' :: r1))))),
                   ("last", JVal.str (String.mk (l2 ++ (pagePat ++ ('7' :: '&' :: r2)))))]) pn
        = .ok (JVal.str "3", JVal.str "7"))
    ∧ (∀ (pd pn lastv cur last : JVal), pd.getd "last" = .ok lastv → truthy lastv = false →
        add_paging_to_outputs pd pn = .ok (cur, last) → last = cur)
    ∧ (∀ (pd pn selfv cur last : JVal), pd.getd "self" = .ok selfv → truthy selfv = false →
        add_paging_to_outputs pd pn = .ok (cur, last) → cur = pn) := by
  refine ⟨?_, ?_, ?_⟩
  · intro l1 r1 l2 r2 pn h1 h2
    have hs1 : searchPage (String.mk (l1 ++ (pagePat ++ ('3' :: '&' :: r1)))).toList = some ['3'] :=
      searchPage_found l1 ['3'] r1 (noEarlierOcc_spec l1 _ h1) (by decide) (by decide)
    have hs2 : searchPage (String.mk (l2 ++ (pagePat ++ ('7' :: '&' :: r2)))).toList = some ['7'] :=
      searchPage_found l2 ['7'] r2 (noEarlierOcc_spec l2 _ h2) (by decide) (by decide)
    have ht1 : truthy (JVal.str (String.mk (l1 ++ (pagePat ++ ('3' :: '&' :: r1))))) = true := by
      cases l1 <;> rfl
    have ht2 : truthy (JVal.str (String.mk (l2 ++ (pagePat ++ ('7' :: '&' :: r2))))) = true := by
      cases l2 <;> rfl
    have e1 : extractPageNumber (JVal.str (String.mk (l1 ++ (pagePat ++ ('3' :: '&' :: r1)))))
        = .ok (JVal.str "3") := extractPageNumber_found _ ['3'] hs1
    have e2 : extractPageNumber (JVal.str (String.mk (l2 ++ (pagePat ++ ('7' :: '&' :: r2)))))
        = .ok (JVal.str "7") := extractPageNumber_found _ ['7'] hs2
    refine add_paging_result _ pn
      (JVal.str (String.mk (l1 ++ (pagePat ++ ('3' :: '&' :: r1)))))
      (JVal.str (String.mk (l2 ++ (pagePat ++ ('7' :: '&' :: r2)))))
      (JVal.str "3") (JVal.str "7") rfl rfl ?_ ?_
    · rw [if_pos ht1, e1]
    · rw [if_pos ht2, e2]
  · intro pd pn lastv cur last hl hfal hok
    obtain ⟨selfv, lastv2, hs2, hl2, hcur, hlast⟩ := add_paging_ok_inv pd pn cur last hok
    have heq : lastv = lastv2 := by
      have := hl.symm.trans hl2
      injection this
    subst heq
    rw [if_neg (by simp [hfal])] at hlast
    injection hlast with h
    exact h.symm
  · intro pd pn selfv cur last hs hfal hok
    obtain ⟨selfv2, lastv, hs2, hl2, hcur, hlast⟩ := add_paging_ok_inv pd pn cur last hok
    have heq : selfv = selfv2 := by
      have := hs.symm.trans hs2
      injection this
    subst heq
    rw [if_neg (by simp [hfal])] at hcur
    injection hcur with h
    exact h.symm

/-- C1 counterexample: the claim as stated fails on the code.  The self link
contains page[number]=3 and the last link contains page[number]=7, yet
because the self link ends right after the value (no trailing ampersand)
add_paging_to_outputs raises instead of returning (3, 7). -/
theorem claim_C1_counterexample :
    add_paging_to_outputs
      (JVal.obj [("self", JVal.str "https://x?page[number]=3"),
                 ("last", JVal.str "https://x?page[number]=7&per")]) (JVal.str "1")
      = .error (.attributeError "NoneType object has no attribute group")
    ∧ containsSubstr "page[number]=3".toList "https://x?page[number]=3".toList = true
    ∧ containsSubstr "page[number]=7".toList "https://x?page[number]=7&per".toList = true := by
  refine ⟨rfl, by decide, by decide⟩

/-- C1 witness: concrete links of the amended shape extract (3, 7); with no
last link the two extracted numbers agree; with no self link the current
page number is the supplied page_number. -/
theorem claim_C1_witness :
    add_paging_to_outputs
      (JVal.obj [("self", JVal.str (String.mk ("https://x?".toList ++ (pagePat ++ ('3' :: '&' :: "p=5".toList))))),
                 ("last", JVal.str (String.mk ("https://y?".toList ++ (pagePat ++ ('7' :: '&' :: "p=5".toList)))))])
      (JVal.str "1") = .ok (JVal.str "3", JVal.str "7")
    ∧ JVal.str "2" = JVal.str "2"
    ∧ JVal.str "9" = JVal.str "9" :=
  ⟨claim_C1.1 "https://x?".toList "p=5".toList "https://y?".toList "p=5".toList
      (JVal.str "1") (by decide) (by decide),
   claim_C1.2.1 (JVal.obj [("self", JVal.str "u?page[number]=2&t")]) (JVal.str "9")
      JVal.null (JVal.str "2") (JVal.str "2") rfl rfl rfl,
   claim_C1.2.2 (JVal.obj []) (JVal.str "9") JVal.null (JVal.str "9") (JVal.str "9")
      rfl rfl rfl⟩

theorem pyInt_str_some (s : String) (n : Int) (h : pyIntParse s = some n) :
    pyInt (JVal.str s) = .ok n := by
  simp only [pyInt, h]

theorem pyInt_str_none (s : String) (h : pyIntParse s = none) :
    pyInt (JVal.str s) =
      .error (.valueError ("invalid literal for int with base 10: " ++ s)) := by
  simp only [pyInt, h]

theorem paging_args_ok (a b : JVal) (s n : Int)
    (ha : pyInt a = .ok s) (hb : pyInt b = .ok n) :
    paging_args_to_params a b = .ok [("page[size]", s), ("page[number]", n)] := by
  unfold paging_args_to_params
  simp only [ha, hb]

theorem paging_args_fst_invalid (a b : JVal) (m : String)
    (ha : pyInt a = .error (.valueError m)) :
    paging_args_to_params a b = .error (.valueError pagingErrMsg) := by
  unfold paging_args_to_params
  simp only [ha]

theorem paging_args_snd_invalid (a b : JVal) (s : Int) (m : String)
    (ha : pyInt a = .ok s) (hb : pyInt b = .error (.valueError m)) :
    paging_args_to_params a b = .error (.valueError pagingErrMsg) := by
  unfold paging_args_to_params
  simp only [ha, hb]

theorem list_command_paging_error (env : Request → Except String JVal)
    (ttm : List JVal → String) (args : List (String × JVal)) (lt : JVal) (e : PyErr)
    (hlt : dGetItem args "list_type" = .ok lt)
    (h : handle_paging (dGet args "page_number") (dGet args "page_size") = .error e) :
    get_ip_objects_list_command env ttm args = (.error e, []) := by
  unfold get_ip_objects_list_command
  simp only [hlt, h]

/-- C2: paging_args_to_params maps a pair of integer arguments to exactly
the dict page[size], page[number] in that order (for int values and for
integer strings); when either argument is a non-integer string it raises
the fixed validation ValueError; and when the paging arguments of the list
command fail validation, the command propagates the error having issued no
HTTP request. -/
theorem claim_C2 :
    (∀ a b : Int, paging_args_to_params (JVal.num a) (JVal.num b) =
      .ok [("page[size]", a), ("page[number]", b)])
    ∧ (∀ (s1 s2 : String) (a b : Int), pyIntParse s1 = some a → pyIntParse s2 = some b →
        paging_args_to_params (JVal.str s1) (JVal.str s2) =
          .ok [("page[size]", a), ("page[number]", b)])
    ∧ (∀ s1 s2 : String, pyIntParse s1 = none →
        paging_args_to_params (JVal.str s1) (JVal.str s2) = .error (.valueError pagingErrMsg))
    ∧ (∀ (s1 s2 : String) (a : Int), pyIntParse s1 = some a → pyIntParse s2 = none →
        paging_args_to_params (JVal.str s1) (JVal.str s2) = .error (.valueError pagingErrMsg))
    ∧ (∀ (env : Request → Except String JVal) (ttm : List JVal → String)
        (lt pn ps : JVal) (e : PyErr),
        handle_paging pn ps = .error e →
        get_ip_objects_list_command env ttm
          [("list_type", lt), ("page_number", pn), ("page_size", ps)] = (.error e, [])) := by
  refine ⟨?_, ?_, ?_, ?_, ?_⟩
  · intro a b
    exact paging_args_ok _ _ a b rfl rfl
  · intro s1 s2 a b h1 h2
    exact paging_args_ok _ _ a b (pyInt_str_some s1 a h1) (pyInt_str_some s2 b h2)
  · intro s1 s2 h1
    exact paging_args_fst_invalid _ _ _ (pyInt_str_none s1 h1)
  · intro s1 s2 a h1 h2
    exact paging_args_snd_invalid _ _ a _ (pyInt_str_some s1 a h1) (pyInt_str_none s2 h2)
  · intro env ttm lt pn ps e h
    exact list_command_paging_error env ttm _ lt e rfl h

/-- C2 witness: integer inputs 4/2 and integer strings 5/7 produce exactly
the paging dict, as do the less obvious integer strings Python accepts
(underscore-grouped 4_2 and the fullwidth digits of 42); the non-integer
strings x and 42_ raise the validation error; and the list command with
page_size x fails with the validation error and issues no request. -/
theorem claim_C2_witness :
    paging_args_to_params (JVal.num 4) (JVal.num 2) =
      .ok [("page[size]", 4), ("page[number]", 2)]
    ∧ paging_args_to_params (JVal.str "5") (JVal.str "7") =
      .ok [("page[size]", 5), ("page[number]", 7)]
    ∧ paging_args_to_params (JVal.str "4_2") (JVal.str "４２") =
      .ok [("page[size]", 42), ("page[number]", 42)]
    ∧ paging_args_to_params (JVal.str "x") (JVal.str "7") = .error (.valueError pagingErrMsg)
    ∧ paging_args_to_params (JVal.str "5") (JVal.str "42_") = .error (.valueError pagingErrMsg)
    ∧ get_ip_objects_list_command wEnvEmpty wTtm
        [("list_type", JVal.str "denylist"), ("page_number", JVal.str "1"),
         ("page_size", JVal.str "x")] = (.error (.valueError pagingErrMsg), []) :=
  ⟨claim_C2.1 4 2,
   claim_C2.2.1 "5" "7" 5 7 (by decide) (by decide),
   claim_C2.2.1 "4_2" "４２" 42 42 (by decide) (by decide),
   claim_C2.2.2.1 "x" "7" (by decide),
   claim_C2.2.2.2.1 "5" "42_" 5 (by decide) (by decide),
   claim_C2.2.2.2.2 wEnvEmpty wTtm (JVal.str "denylist") (JVal.str "1") (JVal.str "x")
     (.valueError pagingErrMsg) rfl⟩

/-- C8: when only one of page_number and page_size is truthy, handle_paging
reports that paging is not required and returns the empty parameter dict,
raising no validation error. -/
theorem claim_C8 (pn ps : JVal) (h : truthy pn ≠ truthy ps) :
    handle_paging pn ps = .ok (false, []) := by
  unfold handle_paging
  cases hpn : truthy pn <;> cases hps : truthy ps <;> simp_all

/-- C8 witness: page_number supplied without page_size, and page_size
supplied without page_number, both mean no paging. -/
theorem claim_C8_witness :
    handle_paging (JVal.str "1") JVal.null = .ok (false, [])
    ∧ handle_paging JVal.null (JVal.str "5") = .ok (false, []) :=
  ⟨claim_C8 (JVal.str "1") JVal.null (by decide),
   claim_C8 JVal.null (JVal.str "5") (by decide)⟩

/-- C5: the connectivity check returns ok when the GET against the denylist
collection succeeds, returns the fixed authorization guidance message when
the request fails with an error whose text contains Unauthorized, and
re-raises any other error unchanged. -/
theorem claim_C5 :
    (∀ (env : Request → Except String JVal) (v : JVal), env testRequest = .ok v →
      test_module env = .ok "ok")
    ∧ (∀ (env : Request → Except String JVal) (e : String), env testRequest = .error e →
        containsSubstr "Unauthorized".toList e.toList = true →
        test_module env = .ok authErrMsg)
    ∧ (∀ (env : Request → Except String JVal) (e : String), env testRequest = .error e →
        containsSubstr "Unauthorized".toList e.toList = false →
        test_module env = .error (.demisto e)) := by
  refine ⟨?_, ?_, ?_⟩
  · intro env v h
    simp [test_module, h]
  · intro env e h hc
    simp only [test_module, h]
    rw [hc]
    rfl
  · intro env e h hc
    simp only [test_module, h]
    rw [hc]
    rfl

/-- C5 witness: a succeeding client, an unauthorized client and a failing
client exercise the three branches of test_module. -/
theorem claim_C5_witness :
    test_module wEnvOk = .ok "ok"
    ∧ test_module wEnvUnauth = .ok authErrMsg
    ∧ test_module wEnvServer = .error (.demisto "Error in API call [500] - Server Error") :=
  ⟨claim_C5.1 wEnvOk JVal.null rfl,
   claim_C5.2.1 wEnvUnauth "Error in API call [401] - Unauthorized" rfl (by decide),
   claim_C5.2.2 wEnvServer "Error in API call [500] - Server Error" rfl (by decide)⟩

/-- C4: a response whose data field is a single mapping parses to the same
structured result as a response whose data field is the one-element
sequence holding that mapping. -/
theorem claim_C4 (r1 r2 : JVal) (m : List (String × JVal))
    (h1 : r1.getd "data" = .ok (.obj m)) (h2 : r2.getd "data" = .ok (.arr [.obj m])) :
    parse_get_ip_object_list_results r1 = parse_get_ip_object_list_results r2 := by
  unfold parse_get_ip_object_list_results
  simp only [h1, h2]

/-- C4 witness: a concrete single-mapping response and its one-element
sequence counterpart parse identically. -/
theorem claim_C4_witness :
    parse_get_ip_object_list_results (JVal.obj [("data", JVal.obj [("id", JVal.str "1")])]) =
      parse_get_ip_object_list_results
        (JVal.obj [("data", JVal.arr [JVal.obj [("id", JVal.str "1")]])]) :=
  claim_C4 (JVal.obj [("data", JVal.obj [("id", JVal.str "1")])])
    (JVal.obj [("data", JVal.arr [JVal.obj [("id", JVal.str "1")]])])
    [("id", JVal.str "1")] rfl rfl

/-- C7: an add invocation that supplies only list_type and IP issues exactly
one POST whose body carries the defaults list_target proxy-routed, mask 32,
duration 0, empty note and empty tags, nested as data.attributes and
data.meta. -/
theorem claim_C7 (env : Request → Except String JVal) (lt ip : String) :
    (add_ip_objects_command env [("list_type", JVal.str lt), ("IP", JVal.str ip)]).2 =
      [⟨"POST", lt ++ "/ip_objects",
        JVal.obj [("list_target", JVal.str "proxy-routed"),
                  ("data", JVal.obj
                    [("id", JVal.str ""), ("type", JVal.str "ip_objects"),
                     ("attributes", JVal.obj [("mask", JVal.str "32"), ("ip", JVal.str ip),
                                              ("duration", JVal.num 0)]),
                     ("meta", JVal.obj [("note", JVal.str ""), ("tags", JVal.arr [])])])],
        [], "content"⟩] := rfl

/-- C3: when the client's answers to per-id GETs do not depend on the query
parameters (as the remote API ignores paging on single lookups), the results
of get_ip_objects_by_ids are identical for any two parameter dicts; and when
every id yields one response whose parse has exactly one element, the call
issues exactly one GET per id in input order and concatenates the
single-element results in input order. -/
theorem claim_C3 (env : Request → Except String JVal) (lt : JVal)
    (p pAlt : List (String × Int)) (ids : List JVal) (resp row d : JVal → JVal)
    (hp : ∀ oid prms, env (mkIdRequest lt oid prms) = env (mkIdRequest lt oid p)) :
    (get_ip_objects_by_ids env ids lt p).1 = (get_ip_objects_by_ids env ids lt pAlt).1
    ∧ ((∀ oid ∈ ids, env (mkIdRequest lt oid p) = .ok (resp oid)
          ∧ (resp oid).getd "data" = .ok (d oid)
          ∧ parse_get_ip_object_list_results (resp oid) = .ok [row oid]) →
       get_ip_objects_by_ids env ids lt p =
         (.ok (ids.map row, ids.map d), ids.map (fun oid => mkIdRequest lt oid p))) := by
  constructor
  · induction ids with
    | nil => rfl
    | cons oid rest ih =>
      have henvAlt : env (mkIdRequest lt oid pAlt) = env (mkIdRequest lt oid p) :=
        hp oid pAlt
      cases henv : env (mkIdRequest lt oid p) with
      | error e => simp only [get_ip_objects_by_ids, henv, henvAlt]
      | ok res =>
        cases hd : res.getd "data" with
        | error e => simp only [get_ip_objects_by_ids, henv, henvAlt, hd]
        | ok dv =>
          cases hpar : parse_get_ip_object_list_results res with
          | error e => simp only [get_ip_objects_by_ids, henv, henvAlt, hd, hpar]
          | ok parsed =>
            cases hh : pyHead parsed with
            | error e => simp only [get_ip_objects_by_ids, henv, henvAlt, hd, hpar, hh]
            | ok h0 =>
              rcases hrec1 : get_ip_objects_by_ids env rest lt p with ⟨res1, tr1⟩
              rcases hrec2 : get_ip_objects_by_ids env rest lt pAlt with ⟨res2, tr2⟩
              have hres : res1 = res2 := by
                rw [hrec1, hrec2] at ih
                exact ih
              subst hres
              cases res1 with
              | error e =>
                simp only [get_ip_objects_by_ids, henv, henvAlt, hd, hpar, hh, hrec1, hrec2]
              | ok pr =>
                obtain ⟨hs, os⟩ := pr
                simp only [get_ip_objects_by_ids, henv, henvAlt, hd, hpar, hh, hrec1, hrec2]
  · induction ids with
    | nil => intro _; rfl
    | cons oid rest ih =>
      intro hresp
      obtain ⟨henv, hd, hpar⟩ := hresp oid (List.mem_cons_self oid rest)
      have hrec := ih (fun o ho => hresp o (List.mem_cons_of_mem _ ho))
      simp only [get_ip_objects_by_ids, henv, hd, hpar, pyHead, hrec, List.map_cons]

/-- A list whose elements are all falsy parses to the empty result list. -/
theorem parseElems_falsy (l : List JVal) (h : l.all (fun x => !truthy x) = true) :
    parseElems l = .ok [] := by
  induction l with
  | nil => rfl
  | cons x rest ih =>
    simp only [List.all_cons, Bool.and_eq_true] at h
    have hx : truthy x = false := by simpa using h.1
    simp [parseElems, hx, ih h.2]

/-- C10: a per-id fetch requires every response to parse to at least one
object: if any requested id answers with a response whose data field is
absent, an empty list, or a list of falsy elements, get_ip_objects_by_ids
raises instead of returning. -/
theorem claim_C10 (env : Request → Except String JVal) (lt : JVal)
    (params : List (String × Int)) (ids : List JVal) (oid : JVal) (resp : JVal)
    (hmem : oid ∈ ids) (henv : env (mkIdRequest lt oid params) = .ok resp)
    (hbad : badData resp = true) :
    isError (get_ip_objects_by_ids env ids lt params).1 = true := by
  induction ids with
  | nil => cases hmem
  | cons x rest ih =>
    rcases List.mem_cons.mp hmem with heq | hmem2
    · subst heq
      unfold badData at hbad
      cases hd : resp.getd "data" with
      | error e =>
        rw [hd] at hbad
        exact Bool.noConfusion hbad
      | ok dv =>
        rw [hd] at hbad
        cases dv with
        | null =>
          have hpar : parse_get_ip_object_list_results resp =
              .error (.typeError "object is not iterable") := by
            unfold parse_get_ip_object_list_results
            simp only [hd]
          simp only [get_ip_objects_by_ids, henv, hd, hpar, isError]
        | arr l =>
          have hall : l.all (fun x => !truthy x) = true := by simpa using hbad
          have hpar : parse_get_ip_object_list_results resp = .ok [] := by
            unfold parse_get_ip_object_list_results
            simp only [hd]
            exact parseElems_falsy l hall
          simp only [get_ip_objects_by_ids, henv, hd, hpar, pyHead, isError]
        | bool b => exact Bool.noConfusion hbad
        | num n => exact Bool.noConfusion hbad
        | str s => exact Bool.noConfusion hbad
        | obj f => exact Bool.noConfusion hbad
    · cases henvx : env (mkIdRequest lt x params) with
      | error e => simp only [get_ip_objects_by_ids, henvx, isError]
      | ok res =>
        cases hd : res.getd "data" with
        | error e => simp only [get_ip_objects_by_ids, henvx, hd, isError]
        | ok dv =>
          cases hpar : parse_get_ip_object_list_results res with
          | error e => simp only [get_ip_objects_by_ids, henvx, hd, hpar, isError]
          | ok parsed =>
            cases hh : pyHead parsed with
            | error e => simp only [get_ip_objects_by_ids, henvx, hd, hpar, hh, isError]
            | ok h0 =>
              rcases hrec : get_ip_objects_by_ids env rest lt params with ⟨res1, tr1⟩
              have hih := ih hmem2
              rw [hrec] at hih
              cases res1 with
              | error e =>
                simp only [get_ip_objects_by_ids, henvx, hd, hpar, hh, hrec, isError]
              | ok pr => simp [isError] at hih

/-- C3 witness: two ids a and b give exactly two GETs in input order with
identical results under two different paging parameter dicts. -/
theorem claim_C3_witness :
    (get_ip_objects_by_ids wC3Env [JVal.str "a", JVal.str "b"] (JVal.str "denylist")
        [("page[size]", 1), ("page[number]", 1)]).1 =
      (get_ip_objects_by_ids wC3Env [JVal.str "a", JVal.str "b"] (JVal.str "denylist")
        [("page[size]", 9), ("page[number]", 9)]).1
    ∧ get_ip_objects_by_ids wC3Env [JVal.str "a", JVal.str "b"] (JVal.str "denylist")
        [("page[size]", 1), ("page[number]", 1)] =
      (.ok ([wC3Row (JVal.str "a"), wC3Row (JVal.str "b")],
            [wC3Data (JVal.str "a"), wC3Data (JVal.str "b")]),
       [mkIdRequest (JVal.str "denylist") (JVal.str "a") [("page[size]", 1), ("page[number]", 1)],
        mkIdRequest (JVal.str "denylist") (JVal.str "b") [("page[size]", 1), ("page[number]", 1)]]) := by
  have H := claim_C3 wC3Env (JVal.str "denylist")
    [("page[size]", 1), ("page[number]", 1)] [("page[size]", 9), ("page[number]", 9)]
    [JVal.str "a", JVal.str "b"] wC3Resp wC3Row wC3Data (fun oid prms => rfl)
  refine ⟨H.1, H.2 ?_⟩
  intro oid ho
  rcases List.mem_cons.mp ho with h | h
  · subst h; exact ⟨rfl, rfl, rfl⟩
  · rcases List.mem_cons.mp h with h2 | h2
    · subst h2; exact ⟨rfl, rfl, rfl⟩
    · cases h2

/-- C10 witness: one id whose response has an empty data list makes the
per-id fetch raise. -/
theorem claim_C10_witness :
    isError (get_ip_objects_by_ids wEnvEmpty [JVal.str "a"] (JVal.str "denylist") []).1 = true :=
  claim_C10 wEnvEmpty (JVal.str "denylist") [] [JVal.str "a"] (JVal.str "a")
    (JVal.obj [("data", JVal.arr [])]) (List.mem_cons_self _ _) rfl (by decide)

/-- The fallback override of the list command applies whenever paging was
required and nothing was parsed. -/
theorem finishList_noresults (ttm : List JVal → String) (x : String) (y z : JVal) :
    (finishList ttm [] x y z true).readable_output = fallbackText := by
  simp [finishList]

/-- C6: when pagination was requested (handle_paging returned true) and the
collection fetch parsed zero objects, any CommandResults the list command
returns carries the fallback guidance text instead of a table. -/
theorem claim_C6 (env : Request → Except String JVal) (ttm : List JVal → String)
    (lt pn ps : JVal) (prms : List (String × Int)) (resp dv : JVal)
    (cr : CommandResults) (tr : List Request)
    (hpag : handle_paging pn ps = .ok (true, prms))
    (henv : env ⟨"GET", pyStr lt ++ "/ip_objects", JVal.obj [], prms, "json"⟩ = .ok resp)
    (hd : resp.getd "data" = .ok dv)
    (hparse : parse_get_ip_object_list_results resp = .ok [])
    (hcmd : get_ip_objects_list_command env ttm
      [("list_type", lt), ("page_number", pn), ("page_size", ps)] = (.ok cr, tr)) :
    cr.readable_output = fallbackText := by
  unfold get_ip_objects_list_command at hcmd
  simp only
    [show (dGetItem [("list_type", lt), ("page_number", pn), ("page_size", ps)] "list_type" :
        Except PyErr JVal) = .ok lt from rfl,
     show argToList (dGet [("list_type", lt), ("page_number", pn), ("page_size", ps)] "object_id") =
        ([] : List JVal) from rfl,
     show dGet [("list_type", lt), ("page_number", pn), ("page_size", ps)] "page_number" = pn from rfl,
     show dGet [("list_type", lt), ("page_number", pn), ("page_size", ps)] "page_size" = ps from rfl,
     hpag, List.isEmpty_nil, if_true, henv, hd, hparse, Bool.true_and] at hcmd
  cases htr : truthy dv with
  | false =>
    rw [htr] at hcmd
    simp only [Bool.false_eq_true, if_false, Prod.mk.injEq, Except.ok.injEq] at hcmd
    obtain ⟨h1, h2⟩ := hcmd
    rw [← h1]
    exact finishList_noresults ttm "" dv (JVal.arr []) 
  | true =>
    rw [htr] at hcmd
    cases resp with
    | obj fields =>
      simp only [if_true,
        show (JVal.obj fields).getd "links" = .ok (lookupField fields "links") from rfl] at hcmd
      cases hadd : add_paging_to_outputs (lookupField fields "links") pn with
      | error e =>
        simp only [hadd] at hcmd
        exact absurd hcmd (by simp)
      | ok pr =>
        obtain ⟨cur, last⟩ := pr
        simp only [hadd, Prod.mk.injEq, Except.ok.injEq] at hcmd
        obtain ⟨h1, h2⟩ := hcmd
        rw [← h1]
        exact finishList_noresults ttm _ dv _
    | null => exact absurd hd (by simp [JVal.getd])
    | bool b => exact absurd hd (by simp [JVal.getd])
    | num n => exact absurd hd (by simp [JVal.getd])
    | str s => exact absurd hd (by simp [JVal.getd])
    | arr l => exact absurd hd (by simp [JVal.getd])

/-- C6 witness: paging 1/2 with an empty data list yields exactly one GET
and the fallback guidance text. -/
theorem claim_C6_witness :
    get_ip_objects_list_command wEnvEmpty wTtm
      [("list_type", JVal.str "denylist"), ("page_number", JVal.str "1"),
       ("page_size", JVal.str "2")]
      = (.ok ⟨fallbackText, some "F5Silverline", some "id",
              some (JVal.obj [("IPObjectList", JVal.arr []), ("Paging", JVal.arr [])])⟩,
         [⟨"GET", "denylist/ip_objects", JVal.obj [],
           [("page[size]", 2), ("page[number]", 1)], "json"⟩])
    ∧ (⟨fallbackText, some "F5Silverline", some "id",
        some (JVal.obj [("IPObjectList", JVal.arr []), ("Paging", JVal.arr [])])⟩ :
        CommandResults).readable_output = fallbackText := by
  constructor
  · rfl
  · exact claim_C6 wEnvEmpty wTtm (JVal.str "denylist") (JVal.str "1") (JVal.str "2")
      [("page[size]", 2), ("page[number]", 1)] (JVal.obj [("data", JVal.arr [])]) (JVal.arr [])
      _ _ rfl rfl rfl rfl rfl
